import Mathlib

/-!
Verification of the ecom-operations fulfillment services against their
natural-language specification.  The development shallowly embeds the parts of
the code base the claims are about:

* the shared Shippo shipping client (src/fulfillment/shippo/client.py):
  rate selection, the rate-shopping label workflow, and the combined
  order + label + packing-slip operation;
* the Generation B production webhook service (src/fulfillment/main.py) and
  its webhook handler (src/fulfillment/shopify/webhook_handler.py);
* the Generation A data model (src/fulfillment-system/.../models/schemas.py),
  validation stage (.../core/order_processor.py), JSON storage
  (.../services/simple_storage.py) and webhook router (.../api/webhooks.py).

Modelling conventions: monetary amounts and weights are exact rationals
(Python parses the amount strings with float; only order comparisons and
simple sums are performed on them, which the rationals reproduce), datetimes
are naturals (isoformat strings compare consistently with time), external
network calls (Shippo label purchase, JSON parsing by the json library,
HMAC-SHA256) are inputs or function parameters of the embedded operations,
and fallible code returns Except.
-/

namespace EcomOps

/-- The Python str.lower method on ASCII data, as a character-list map. -/
def py_lower (s : String) : String :=
  String.mk (s.data.map Char.toLower)

/-- The Python str.strip method: drop whitespace from both ends. -/
def py_strip (s : String) : String :=
  String.mk
    (((s.data.dropWhile Char.isWhitespace).reverse.dropWhile
        Char.isWhitespace).reverse)

/- ===================================================================
   Shared Shippo client - src/fulfillment/shippo/client.py
   =================================================================== -/

/-- A candidate rate as returned inside a Shippo shipment response.
Field amount is the parsed value of the amount string. -/
structure Rate where
  provider : String
  amount : ℚ
  messages : List String
  object_id : String
deriving DecidableEq, Repr

/-- One fold step of the Python builtin min with key float(amount):
keep the current best unless the candidate is strictly cheaper, so the
first minimum in list order wins, exactly as Python min does. -/
def minStep (best x : Rate) : Rate :=
  if x.amount < best.amount then x else best

/-- Python min over a possibly empty list keyed by amount. -/
def pyMinByAmount : List Rate → Option Rate
  | [] => none
  | r :: rs => some (rs.foldl minStep r)

/-- The valid_rates list of _select_best_rate (client.py line 277): candidates
whose messages list is empty. -/
def valid_rates_of (rates : List Rate) : List Rate :=
  rates.filter (fun r => r.messages.isEmpty)

/-- The carrier_rates list of _select_best_rate (client.py lines 284-287):
valid candidates of the preferred carrier, compared case-insensitively. -/
def carrier_rates_of (rates : List Rate) (p : String) : List Rate :=
  (valid_rates_of rates).filter (fun r => py_lower r.provider == py_lower p)

/-- ShippoService._select_best_rate (client.py lines 270-292): drop candidates
whose messages list is non-empty; fail when nothing is left; with a preferred
carrier that has valid candidates pick its cheapest, otherwise the cheapest
valid candidate overall. -/
def select_best_rate (rates : List Rate) (preferred_carrier : Option String) :
    Except String Rate :=
  match pyMinByAmount (valid_rates_of rates) with
  | none => .error "No valid shipping rates available"
  | some cheapest =>
    match preferred_carrier with
    | none => .ok cheapest
    | some p =>
      match pyMinByAmount (carrier_rates_of rates p) with
      | some best => .ok best
      | none => .ok cheapest

/-- The ShippoLabelResponse pydantic model (client.py lines 39-45).  These are
exactly the declared fields; in particular there is no rate_details field. -/
structure ShippoLabelResponse where
  object_id : String
  label_url : String
  tracking_number : String
  rate : String
  status : String
  messages : List String
deriving DecidableEq, Repr

/-- The Python expression getattr(label_result, "rate_details", ...) used at
client.py lines 342-349 and main.py lines 199, 236.  The pydantic model
declares no rate_details field and none is ever set on the model object:
get_rates_and_create_label (client.py lines 264-268) adds rate_details only to
label_response_dict, a plain dict copy that is discarded, and then returns
label_response itself.  The getattr default therefore always applies. -/
def rate_details (_ : ShippoLabelResponse) : Option Rate := none

/-- ShippoService.get_rates_and_create_label (client.py lines 224-268).
The shipment call that produces the candidate rates and the transaction call
that purchases the label are external; they enter as the rates list and the
purchase function.  The source builds label_response_dict with the selected
rate under rate_details but returns label_response, the model object, so the
selected rate never travels with the returned value. -/
def get_rates_and_create_label (rates : List Rate)
    (purchase : String → ShippoLabelResponse)
    (preferred_carrier : Option String) : Except String ShippoLabelResponse :=
  if rates.isEmpty then .error "No shipping rates available"
  else
    match select_best_rate rates preferred_carrier with
    | .error e => .error e
    | .ok selected =>
      let label_response := purchase selected.object_id
      .ok label_response

/-- The result dictionary of create_combined_label_and_packing_slip
(client.py lines 337-351). -/
structure CombinedResult where
  order_id : String
  label_url : String
  tracking_number : String
  rate_amount : ℚ
  carrier : String
  packing_slip_url : String
  total_cost : ℚ
deriving DecidableEq, Repr

/-- ShippoService.create_combined_label_and_packing_slip (client.py lines
310-355).  rate_amount and total_cost read getattr(label_result,
"rate_details", ...).get("amount", "0.00"); carrier reads the provider the
same way.  The packing-slip fee is the fixed 0.05. -/
def create_combined_label_and_packing_slip (order_id : String)
    (rates : List Rate) (purchase : String → ShippoLabelResponse)
    (packing_slip_url : String) (preferred_carrier : Option String) :
    Except String CombinedResult :=
  match get_rates_and_create_label rates purchase preferred_carrier with
  | .error e => .error e
  | .ok label_result =>
    .ok { order_id := order_id
          label_url := label_result.label_url
          tracking_number := label_result.tracking_number
          rate_amount := ((rate_details label_result).map Rate.amount).getD 0
          carrier := ((rate_details label_result).map Rate.provider).getD ""
          packing_slip_url := packing_slip_url
          total_cost :=
            ((rate_details label_result).map Rate.amount).getD 0 + 5 / 100 }

/-- Projection used to state facts about the combined operation. -/
def combined_total_cost : Except String CombinedResult → Option ℚ
  | .ok r => some r.total_cost
  | .error _ => none

/- ===================================================================
   Generation B background fulfillment - src/fulfillment/main.py
   =================================================================== -/

/-- The Shopify carrier mapping of main.py lines 202-207. -/
def carrier_mapping : List (String × String) :=
  [("usps", "USPS"), ("ups", "UPS"), ("fedex", "FedEx"),
   ("dhl_express", "DHL Express")]

/-- The fulfillment result dictionary written by process_order_fulfillment
(main.py lines 228-243).  carrier holds the tracking_company value that is
also sent in the Shopify fulfillment update (main.py lines 218-225). -/
structure GenBFulfillmentResult where
  order_id : Nat
  order_name : String
  fulfillment_id : Nat
  label_url : String
  tracking_number : String
  carrier : String
  cost : ℚ
  shopify_status : String
  created_at : String
deriving DecidableEq, Repr

/-- The pure core of process_order_fulfillment (main.py lines 139-249):
label purchase via the shared client with no preferred carrier, carrier from
getattr(label_result, "rate_details", ...).get("provider", "USPS"),
the mapping to the Shopify carrier label, and the result file contents.
The Shopify fulfillment id and status and the current time are external
inputs. -/
def process_order_fulfillment (order_id : Nat) (order_number : String)
    (rates : List Rate) (purchase : String → ShippoLabelResponse)
    (fulfillment_id : Nat) (shopify_status : String) (now : String) :
    Except String GenBFulfillmentResult :=
  match get_rates_and_create_label rates purchase none with
  | .error e => .error e
  | .ok label_result =>
    let tracking_number :=
      if label_result.tracking_number = "" then "TEST" ++ toString order_id
      else label_result.tracking_number
    let carrier := ((rate_details label_result).map Rate.provider).getD "USPS"
    let tracking_company := (carrier_mapping.lookup (py_lower carrier)).getD "Other"
    .ok { order_id := order_id
          order_name := order_number
          fulfillment_id := fulfillment_id
          label_url :=
            if label_result.label_url = "" then "N/A" else label_result.label_url
          tracking_number := tracking_number
          carrier := tracking_company
          cost := ((rate_details label_result).map Rate.amount).getD 0
          shopify_status := shopify_status
          created_at := now }

/-- Projection used to state facts about the recorded carrier. -/
def fulfillment_carrier : Except String GenBFulfillmentResult → Option String
  | .ok r => some r.carrier
  | .error _ => none

/- ===================================================================
   Generation B status endpoint - src/fulfillment/main.py lines 290-315
   =================================================================== -/

/-- A fragment of JSON big enough for the persisted fulfillment files. -/
inductive Json where
  | str (s : String)
  | num (q : ℚ)
  | obj (fields : List (String × Json))

/-- Python subscription d[k]: a missing key raises KeyError. -/
def Json.getKey (j : Json) (k : String) : Except String Json :=
  match j with
  | .obj fields =>
    match fields.lookup k with
    | some v => .ok v
    | none => .error ("KeyError: " ++ k)
  | _ => .error ("TypeError: not a dict: " ++ k)

/-- The JSON written to fulfillment_{id}.json by process_order_fulfillment
(main.py lines 228-249): note there is no packing_slip and no total_cost
key. -/
def genB_result_json (r : GenBFulfillmentResult) : Json :=
  .obj [("order_id", .num r.order_id),
        ("order_name", .str r.order_name),
        ("fulfillment_id", .num r.fulfillment_id),
        ("label", .obj [("url", .str r.label_url),
                        ("tracking_number", .str r.tracking_number),
                        ("carrier", .str r.carrier),
                        ("cost", .num r.cost)]),
        ("shopify_fulfillment", .obj [("id", .num r.fulfillment_id),
                                      ("status", .str r.shopify_status)]),
        ("created_at", .str r.created_at)]

/-- get_order_status (main.py lines 290-315).  The fulfillment file argument
is the parsed content of fulfillment_{id}.json when that file exists.  The
subscriptions happen in the order of the response dict literal. -/
def get_order_status (order_id : String) (fulfillment_file : Option Json) :
    Except String Json :=
  match fulfillment_file with
  | none =>
    .ok (.obj [("order_id", .str order_id),
               ("status", .str "pending"),
               ("message", .str "Order not yet processed")])
  | some fulfillment => do
    let label ← fulfillment.getKey "label"
    let tracking ← label.getKey "tracking_number"
    let carrier ← label.getKey "carrier"
    let url ← label.getKey "url"
    let packing ← fulfillment.getKey "packing_slip"
    let packing_url ← packing.getKey "url"
    let total ← fulfillment.getKey "total_cost"
    let created ← fulfillment.getKey "created_at"
    .ok (.obj [("order_id", .str order_id),
               ("status", .str "fulfilled"),
               ("tracking_number", tracking),
               ("carrier", carrier),
               ("label_url", url),
               ("packing_slip_url", packing_url),
               ("total_cost", total),
               ("created_at", created)])

/- ===================================================================
   Generation A data model - src/fulfillment-system/.../models/schemas.py
   =================================================================== -/

/-- Raw constructor input for the Address pydantic model. -/
structure AddressInput where
  name : String
  company : Option String := none
  address1 : String
  address2 : Option String := none
  city : String
  state : String
  postal_code : String
  country : String := "US"
  phone : Option String := none
deriving DecidableEq, Repr

/-- The validated Address model (schemas.py lines 51-73). -/
structure Address where
  name : String
  company : Option String
  address1 : String
  address2 : Option String
  city : String
  state : String
  postal_code : String
  country : String
  phone : Option String
deriving DecidableEq, Repr

/-- The regex of schemas.py line 71: five digits optionally followed by a
dash and four digits, anchored at both ends. -/
def is_us_zip (s : String) : Bool :=
  let cs := s.toList
  (cs.length = 5 && cs.all Char.isDigit) ||
  (cs.length = 10 && (cs.take 5).all Char.isDigit &&
    cs.get? 5 == some (Char.ofNat 45) && (cs.drop 6).all Char.isDigit)

/-- A required string field with pydantic min_length and max_length. -/
def validate_str (lo hi : Nat) (s : String) : Except String String :=
  if s.length < lo || hi < s.length then .error "string length out of bounds"
  else .ok s

/-- An optional string field with a pydantic max_length. -/
def validate_opt_str (hi : Nat) : Option String → Except String (Option String)
  | none => .ok none
  | some s =>
    if hi < (py_strip s).length then .error "string length out of bounds"
    else .ok (some (py_strip s))

/-- The body of the validate_postal_code validator (schemas.py lines 65-73).
values_country is values.get("country"), the country entry of the dict of
previously validated fields. -/
def validate_postal_code (values_country : Option String) (v : String) :
    Except String String :=
  if values_country == some "US" then
    if is_us_zip v then .ok v else .error "Invalid US ZIP code format"
  else .ok v

/-- Construction of an Address.  pydantic validates fields in declaration
order with str_strip_whitespace, and the values dict handed to a field
validator holds only the fields already validated.  country is declared after
postal_code (schemas.py lines 61-62), so when validate_postal_code runs the
values dict holds name, company, address1, address2, city and state only, and
values.get("country") is None. -/
def Address.construct (a : AddressInput) : Except String Address := do
  let name ← validate_str 1 100 (py_strip a.name)
  let company ← validate_opt_str 100 a.company
  let address1 ← validate_str 1 100 (py_strip a.address1)
  let address2 ← validate_opt_str 100 a.address2
  let city ← validate_str 1 50 (py_strip a.city)
  let state ← validate_str 2 50 (py_strip a.state)
  let values : List (String × String) :=
    [("name", name), ("address1", address1), ("city", city), ("state", state)]
  let postal_stripped ← validate_str 1 20 (py_strip a.postal_code)
  let postal_code ← validate_postal_code (values.lookup "country") postal_stripped
  let country ← validate_str 2 3 (py_strip a.country)
  let phone ← validate_opt_str 20 a.phone
  .ok { name := name, company := company, address1 := address1,
        address2 := address2, city := city, state := state,
        postal_code := postal_code, country := country, phone := phone }

/-- Truth value of success of an Except computation. -/
def isOk {ε α : Type} : Except ε α → Bool
  | .ok _ => true
  | .error _ => false

/-- Truth value of failure of an Except computation. -/
def isError {ε α : Type} : Except ε α → Bool
  | .ok _ => false
  | .error _ => true

/-- The LineItem model (schemas.py lines 106-128). -/
structure LineItemA where
  sku : String
  name : String
  quantity : Nat
  price : ℚ
  weight_oz : Option ℚ
  requires_shipping : Bool
deriving DecidableEq, Repr

/-- total_weight_oz of a line item: (weight_oz or 0) times quantity. -/
def LineItemA.total_weight_oz (i : LineItemA) : ℚ :=
  i.weight_oz.getD 0 * i.quantity

/-- The Customer model (schemas.py lines 90-103), the fields the claims
need. -/
structure CustomerA where
  email : String
  first_name : String
  last_name : String
  phone : Option String
deriving DecidableEq, Repr

/-- The Order model (schemas.py lines 131-192).  The surrogate UUID is a
natural, enum fields are their string values (use_enum_values is set on the
model), datetimes are naturals. -/
structure OrderA where
  id : Nat
  order_number : String
  channel : String
  status : String
  customer : CustomerA
  shipping_address : Address
  line_items : List LineItemA
  subtotal : ℚ
  shipping_cost : Option ℚ
  tax_amount : Option ℚ
  total_amount : ℚ
  currency : String
  channel_order_id : String
  notes : Option String
  tags : List String
  created_at : Nat
  updated_at : Nat
deriving DecidableEq, Repr

/-- Order.total_weight_oz: sum of the line item total weights. -/
def OrderA.total_weight_oz (o : OrderA) : ℚ :=
  (o.line_items.map LineItemA.total_weight_oz).sum

/-- Order.requires_shipping: any line item requires shipping. -/
def OrderA.requires_shipping (o : OrderA) : Bool :=
  o.line_items.any (fun i => i.requires_shipping)

/- ===================================================================
   Generation A validation stage - .../core/order_processor.py lines 62-115
   =================================================================== -/

/-- The validation entry the stage adds to the pipeline context. -/
structure ValidationContext where
  shipping_required : Bool
  weight_oz : ℚ
deriving DecidableEq, Repr

/-- ValidationStage.process (order_processor.py lines 69-96): reject when no
line item requires shipping, reject when total weight strictly exceeds
1600 oz.  _validate_educational_products (lines 98-110) only logs warnings
for SKUs outside the four known prefixes and _validate_bundle_items (lines
112-115) is a no-op, so neither can fail. -/
def validation_stage (o : OrderA) : Except String ValidationContext :=
  if o.requires_shipping = false then
    .error "Validation failed: Order contains no shippable items"
  else if 1600 < o.total_weight_oz then
    .error "Validation failed: Order exceeds maximum weight limit"
  else
    .ok { shipping_required := true, weight_oz := o.total_weight_oz }

/- ===================================================================
   Generation A JSON storage - .../services/simple_storage.py
   =================================================================== -/

/-- One entry of orders_index.json (simple_storage.py lines 80-88). -/
structure OrderIndexEntry where
  order_number : String
  channel_order_id : String
  status : String
  created_at : Nat
  customer_email : String
  total_amount : ℚ
  file_path : String
deriving DecidableEq, Repr

/-- The storage state: the insertion-ordered orders index keyed by the order
id string, and the order files keyed by file name, each holding the stored
order (JSON serialisation of a valid order round-trips field for field, so
the file content is modelled as the order value itself). -/
structure StorageState where
  orders_index : List (String × OrderIndexEntry)
  order_files : List (String × OrderA)
deriving Repr

/-- Python dict assignment d[k] = v: replace in place when the key exists,
append otherwise. -/
def dictInsert {α : Type} (k : String) (v : α) :
    List (String × α) → List (String × α)
  | [] => [(k, v)]
  | (k0, v0) :: rest =>
    if k0 = k then (k, v) :: rest else (k0, v0) :: dictInsert k v rest

/-- The index entry save_order writes for an order (simple_storage.py lines
80-88). -/
def index_entry_of (o : OrderA) : OrderIndexEntry :=
  { order_number := o.order_number
    channel_order_id := o.channel_order_id
    status := o.status
    created_at := o.created_at
    customer_email := o.customer.email
    total_amount := o.total_amount
    file_path := o.order_number ++ ".json" }

/-- SimpleJsonStorage.save_order (simple_storage.py lines 64-91): write the
order file keyed by order number and upsert the index entry keyed by the
order id string. -/
def save_order (s : StorageState) (o : OrderA) : StorageState :=
  { orders_index := dictInsert (toString o.id) (index_entry_of o) s.orders_index
    order_files := dictInsert (o.order_number ++ ".json") o s.order_files }

/-- SimpleJsonStorage.get_order (lines 93-107): index lookup, then read the
file named there; None when either is missing. -/
def get_order (s : StorageState) (order_id : String) : Option OrderA := do
  let info ← s.orders_index.lookup order_id
  s.order_files.lookup info.file_path

/-- SimpleJsonStorage.get_order_by_channel_id (lines 121-126): linear scan of
the index in insertion order, returning get_order of the first match. -/
def get_order_by_channel_id (s : StorageState) (cid : String) : Option OrderA :=
  match s.orders_index.find? (fun p => p.2.channel_order_id == cid) with
  | some p => get_order s p.1
  | none => none

/-- The sort key relation of list_orders: created_at descending. -/
def createdDesc (a b : String × OrderIndexEntry) : Prop :=
  b.2.created_at ≤ a.2.created_at

instance : DecidableRel createdDesc :=
  fun a b => Nat.decLe b.2.created_at a.2.created_at

instance : IsTotal (String × OrderIndexEntry) createdDesc :=
  ⟨fun a b => Nat.le_total b.2.created_at a.2.created_at⟩

instance : IsTrans (String × OrderIndexEntry) createdDesc :=
  ⟨fun _ _ _ hab hbc => Nat.le_trans hbc hab⟩

/-- The status filter of list_orders (lines 137-139): a falsy status value
(None or the empty string) disables filtering, otherwise keep entries whose
status equals the filter. -/
def filter_by_status (s : StorageState) (status : Option String) :
    List (String × OrderIndexEntry) :=
  s.orders_index.filter (fun p =>
    match status with
    | none => true
    | some st => if st = "" then true else p.2.status == st)

/-- SimpleJsonStorage.list_orders (lines 128-149): filter, stable sort by
created_at descending, then the slice from offset of length limit. -/
def list_orders (s : StorageState) (status : Option String)
    (limit offset : Nat) : List (String × OrderIndexEntry) :=
  ((((filter_by_status s status).insertionSort createdDesc).drop offset).take
    limit)

/- ===================================================================
   Generation A webhook router - .../api/webhooks.py
   =================================================================== -/

/-- One inbound webhook request as the orders-create endpoint sees it: the
raw body, the headers dict the handler builds with dict(request.headers) -
whose keys the ASGI server delivers lowercased, which is why the endpoint
itself reads x-shopify-event-id in lowercase (webhooks.py line 47) - and
whether request.json() succeeds on the body. -/
structure RequestA where
  body : String
  headers : List (String × String)
  json_ok : Bool
deriving DecidableEq, Repr

/-- Responses of the orders-create endpoint. -/
inductive ResponseA where
  | unauthorized
  | badRequest
  | duplicateOk
  | acceptedOk
deriving DecidableEq, Repr

/-- Python headers.get(k, "") on the plain headers dict: a case-sensitive
lookup with an empty-string default. -/
def get_header (headers : List (String × String)) (k : String) : String :=
  (headers.lookup k).getD ""

/-- The event id the endpoint reads (webhooks.py line 47), with the lowercase
key literal of the source. -/
def event_id_of (r : RequestA) : String :=
  get_header r.headers "x-shopify-event-id"

/-- ShopifyService.verify_webhook (integrations/shopify.py lines 394-406 and
25-54): extract the header with the mixed-case key literal of the source via
headers.get("X-Shopify-Hmac-Sha256", "") - a case-sensitive lookup on the
lowercase-keyed dict - then compare base64(HMAC-SHA256(body, secret)) with
the extracted value.  The HMAC computation is abstracted as the function
parameter hmac_b64. -/
def verify_webhook (hmac_b64 : String → String → String) (secret : String)
    (raw_body : String) (headers : List (String × String)) : Bool :=
  hmac_b64 secret raw_body == get_header headers "X-Shopify-Hmac-Sha256"

/-- Outcome of one request against the orders-create endpoint: the response,
the processed_events set afterwards, and the background tasks scheduled. -/
structure StepResultA where
  response : ResponseA
  events : List String
  tasks : List RequestA
deriving DecidableEq, Repr

/-- handle_order_create (webhooks.py lines 23-70): verify the signature (401),
answer duplicates from the processed_events set (200, no task), add the event
id to the set, parse the JSON body (400), then schedule the background task
and acknowledge. -/
def handle_order_create (hmac_b64 : String → String → String) (secret : String)
    (processed_events : List String) (r : RequestA) : StepResultA :=
  if verify_webhook hmac_b64 secret r.body r.headers = false then
    { response := .unauthorized, events := processed_events, tasks := [] }
  else if event_id_of r ∈ processed_events then
    { response := .duplicateOk, events := processed_events, tasks := [] }
  else
    let events := processed_events ++ [event_id_of r]
    if r.json_ok = false then
      { response := .badRequest, events := events, tasks := [] }
    else
      { response := .acceptedOk, events := events, tasks := [r] }

/-- Run a sequence of requests through the endpoint within one process
lifetime, pairing every request with its outcome. -/
def process_trace (hmac_b64 : String → String → String) (secret : String) :
    List String → List RequestA → List (RequestA × StepResultA)
  | _, [] => []
  | events, r :: rs =>
    let step := handle_order_create hmac_b64 secret events r
    (r, step) :: process_trace hmac_b64 secret step.events rs

/- ===================================================================
   Generation B webhook handling - src/fulfillment/shopify/webhook_handler.py
   and the endpoints of src/fulfillment/main.py
   =================================================================== -/

/-- A line item map of the Generation B webhook payload. -/
structure LineItemB where
  name : String
  price : String
  sku : String
  quantity : Nat
  grams : ℚ
deriving DecidableEq, Repr

/-- The ShopifyOrder pydantic model (webhook_handler.py lines 16-29). -/
structure ShopifyOrderB where
  id : Nat
  order_number : String
  name : String
  email : Option String := none
  total_price : String
  currency : String
  fulfillment_status : Option String := none
  financial_status : String
  shipping_address : Option (List (String × String)) := none
  line_items : List LineItemB := []
  created_at : String
  updated_at : String
deriving DecidableEq, Repr

/-- ShopifyWebhookHandler.should_process_order (webhook_handler.py lines
116-147): paid orders only, skip already fulfilled ones, require a truthy
shipping address (a missing or empty dict is falsy) and at least one line
item. -/
def should_process_order (o : ShopifyOrderB) : Bool :=
  if (py_lower o.financial_status == "paid") = false then false
  else if o.fulfillment_status == some "fulfilled" then false
  else if (o.shipping_address.getD []).isEmpty then false
  else if o.line_items.isEmpty then false
  else true

/-- Result of json.loads plus pydantic validation on the raw body. -/
inductive ParseOutcome where
  | parsed (o : ShopifyOrderB)
  | invalidOrder
  | badJson
deriving DecidableEq, Repr

/-- One request against the Generation B order-create endpoint. -/
structure RequestB where
  body : String
  sig_header : Option String
  outcome : ParseOutcome
deriving DecidableEq, Repr

/-- HTTPException status codes raised by the Generation B endpoints. -/
inductive HttpError where
  | unauthorized401
  | badRequest400
  | unprocessable422
  | forbidden403
  | internal500
deriving DecidableEq, Repr

/-- ShopifyWebhookHandler.verify_webhook_signature (webhook_handler.py lines
40-71): an empty secret skips verification, a missing header fails, otherwise
the header is compared with base64(HMAC-SHA256(body, secret)). -/
def verify_webhook_signature (hmac_b64 : String → String → String)
    (secret : String) (body : String) (sig_header : Option String) : Bool :=
  if secret = "" then true
  else
    match sig_header with
    | none => false
    | some s => s == hmac_b64 secret body

/-- ShopifyWebhookHandler.parse_order_webhook (webhook_handler.py lines
73-114).  On signature failure the source raises HTTPException(401) at line
78, but that raise sits inside the try body, and HTTPException is neither a
pydantic ValidationError nor a json.JSONDecodeError, so the trailing
except Exception clause at line 109 catches it and re-raises
HTTPException(500): the endpoint therefore answers 500 on a bad or missing
signature, exactly as the repository integration test expects.  Malformed
JSON is answered 400 and a pydantic validation failure 422 (their
HTTPExceptions are raised inside except clauses of the same try and escape
it). -/
def parse_order_webhook (hmac_b64 : String → String → String) (secret : String)
    (r : RequestB) : Except HttpError ShopifyOrderB :=
  if verify_webhook_signature hmac_b64 secret r.body r.sig_header = false then
    .error .internal500
  else
    match r.outcome with
    | .parsed o => .ok o
    | .invalidOrder => .error .unprocessable422
    | .badJson => .error .badRequest400

/-- Body of the webhook endpoint responses of main.py. -/
structure WebhookResponseB where
  status : String
  order_id : Nat
  order_number : String
  reason : Option String
  message : Option String
deriving DecidableEq, Repr

/-- handle_order_webhook, the production endpoint (main.py lines 96-136):
parse and verify, skip ineligible orders, otherwise persist, schedule the
background task and answer status accepted.  The second component is the
list of scheduled background tasks. -/
def handle_order_webhook (hmac_b64 : String → String → String)
    (secret : String) (r : RequestB) :
    Except HttpError WebhookResponseB × List ShopifyOrderB :=
  match parse_order_webhook hmac_b64 secret r with
  | .error e => (.error e, [])
  | .ok o =>
    if should_process_order o = false then
      (.ok { status := "skipped", order_id := o.id,
             order_number := o.order_number,
             reason := some "Order not eligible for fulfillment",
             message := none }, [])
    else
      (.ok { status := "accepted", order_id := o.id,
             order_number := o.order_number,
             reason := none,
             message := some "Order webhook received and queued for processing" },
       [o])

/-- test_order_webhook (main.py lines 318-361): 403 outside test mode, any
parse or validation failure is answered 500 by the generic handler, eligible
orders are queued and answered with status received, ineligible ones with
status skipped. -/
def test_order_webhook (use_test_mode : Bool)
    (order_data : Except String ShopifyOrderB) :
    Except HttpError WebhookResponseB × List ShopifyOrderB :=
  if use_test_mode = false then (.error .forbidden403, [])
  else
    match order_data with
    | .error _ => (.error .internal500, [])
    | .ok o =>
      if should_process_order o = false then
        (.ok { status := "skipped", order_id := o.id,
               order_number := o.order_number,
               reason := some "Order not eligible for fulfillment",
               message := none }, [])
      else
        (.ok { status := "received", order_id := o.id,
               order_number := o.order_number,
               reason := none,
               message :=
                 some "Test order webhook received and queued for processing" },
         [o])

/-- Projection used to state facts about endpoint response bodies. -/
def response_status : Except HttpError WebhookResponseB → Option String
  | .ok r => some r.status
  | .error _ => none

/- ===================================================================
   Concrete sample inputs used by counterexamples and witnesses
   =================================================================== -/

/-- A valid USPS candidate rate of 5.50. -/
def usps550 : Rate :=
  { provider := "usps", amount := 11 / 2, messages := [], object_id := "rate-usps-1" }

/-- A valid UPS candidate rate of 7.25. -/
def ups725 : Rate :=
  { provider := "ups", amount := 29 / 4, messages := [], object_id := "rate-ups-1" }

/-- A valid UPS candidate rate of 3.00. -/
def ups300 : Rate :=
  { provider := "ups", amount := 3, messages := [], object_id := "rate-ups-2" }

/-- A transaction response for a purchased label. -/
def sample_purchase : String → ShippoLabelResponse := fun rid =>
  { object_id := "txn-1", label_url := "https://deliver.goshippo.com/label.pdf",
    tracking_number := "TRACK123", rate := rid, status := "SUCCESS",
    messages := [] }

/-- The valid paid sample order of the integration test suite
(tests/fulfillment/test_integration_api.py lines 83-112). -/
def sample_paid_order : ShopifyOrderB :=
  { id := 12345, order_number := "GL-1001", name := "#GL-1001",
    email := some "customer@example.com", total_price := "29.99",
    currency := "USD", fulfillment_status := none, financial_status := "paid",
    shipping_address := some
      [("name", "John Doe"), ("address1", "123 Main St"), ("city", "Anytown"),
       ("province_code", "CA"), ("zip", "90210"), ("country_code", "US")],
    line_items :=
      [{ name := "Code Breakers Book Set", price := "29.99",
         sku := "CB-BOOK-SET", quantity := 1, grams := 1000 }],
    created_at := "2024-01-15T10:30:00Z", updated_at := "2024-01-15T10:30:00Z" }

/-- The same payload with financial status pending. -/
def sample_pending_order : ShopifyOrderB :=
  { sample_paid_order with financial_status := "pending" }

/-- A US address input whose postal code is not a ZIP code. -/
def abcde_address : AddressInput :=
  { name := "John Doe", address1 := "123 Main St", city := "Anytown",
    state := "CA", postal_code := "ABCDE", country := "US" }

/-- The same address input with a five-digit ZIP code. -/
def zip_address : AddressInput :=
  { abcde_address with postal_code := "90210" }

/-- A shippable two-pound line item. -/
def sample_item : LineItemA :=
  { sku := "CB-BOOK-SET", name := "Code Breakers Book Set", quantity := 2,
    price := 1999 / 100, weight_oz := some 800, requires_shipping := true }

/-- A sample validated shipping address value. -/
def sample_address : Address :=
  { name := "John Doe", company := none, address1 := "123 Main St",
    address2 := none, city := "Anytown", state := "CA",
    postal_code := "90210", country := "US", phone := none }

/-- A sample customer. -/
def sample_customer : CustomerA :=
  { email := "customer@example.com", first_name := "John", last_name := "Doe",
    phone := none }

/-- An order whose total weight is exactly 1600 oz. -/
def sample_order_1600 : OrderA :=
  { id := 42, order_number := "GL-1001", channel := "shopify",
    status := "pending", customer := sample_customer,
    shipping_address := sample_address, line_items := [sample_item],
    subtotal := 3998 / 100, shipping_cost := none, tax_amount := none,
    total_amount := 3998 / 100, currency := "USD",
    channel_order_id := "987654321", notes := none, tags := [],
    created_at := 1700000000, updated_at := 1700000000 }

/-- The empty storage state. -/
def empty_storage : StorageState :=
  { orders_index := [], order_files := [] }

/-- A stand-in HMAC computation for concrete witnesses: the theorems about
the webhook endpoints hold for every hmac_b64 function. -/
def demo_hmac (secret body : String) : String :=
  "hmac-" ++ secret ++ "-" ++ body

/-- A Generation A request carrying a wrong signature under the lowercase
header key the ASGI server delivers. -/
def lowercase_bad_sig_request : RequestA :=
  { body := "payload-a",
    headers := [("x-shopify-hmac-sha256", "WRONG"),
                ("x-shopify-event-id", "evt-9")],
    json_ok := true }

/-- A Generation B request whose signature header is present but wrong. -/
def bad_sig_request_b : RequestB :=
  { body := "payload-b", sig_header := some "WRONG",
    outcome := .parsed sample_paid_order }

/-- A Generation B request with no signature header at all. -/
def missing_sig_request_b : RequestB :=
  { body := "payload-b", sig_header := none,
    outcome := .parsed sample_paid_order }

/-- A Generation A request correctly signed for demo_hmac - the value
base64(HMAC-SHA256(body, secret)) presented back under the lowercase header
key, as the ASGI server delivers it - with a malformed JSON body. -/
def signed_malformed_request : RequestA :=
  { body := "not json",
    headers := [("x-shopify-hmac-sha256", demo_hmac "sec" "not json"),
                ("x-shopify-event-id", "evt-1")],
    json_ok := false }

/-- A later correctly signed, well-formed request with the same event id. -/
def signed_retry_request : RequestA :=
  { body := "good body",
    headers := [("x-shopify-hmac-sha256", demo_hmac "sec" "good body"),
                ("x-shopify-event-id", "evt-1")],
    json_ok := true }

/- ===================================================================
   Helper lemmas
   =================================================================== -/

theorem minStep_amount_le_left (a b : Rate) : (minStep a b).amount ≤ a.amount := by
  unfold minStep
  split
  · exact le_of_lt (by assumption)
  · exact le_refl _

theorem minStep_amount_le_right (a b : Rate) : (minStep a b).amount ≤ b.amount := by
  unfold minStep
  split
  · exact le_refl _
  · exact le_of_not_lt (by assumption)

theorem foldl_minStep_mem (l : List Rate) :
    ∀ init : Rate, l.foldl minStep init = init ∨ l.foldl minStep init ∈ l := by
  induction l with
  | nil => intro init; exact Or.inl rfl
  | cons x xs ih =>
    intro init
    rcases ih (minStep init x) with h | h
    · rw [List.foldl_cons, h]
      unfold minStep
      split
      · exact Or.inr (List.mem_cons_self _ _)
      · exact Or.inl rfl
    · exact Or.inr (List.mem_cons_of_mem _ (by rw [List.foldl_cons]; exact h))

theorem foldl_minStep_le (l : List Rate) :
    ∀ init : Rate, (l.foldl minStep init).amount ≤ init.amount ∧
      ∀ x ∈ l, (l.foldl minStep init).amount ≤ x.amount := by
  induction l with
  | nil =>
    intro init
    exact ⟨le_refl _, fun x hx => absurd hx (List.not_mem_nil x)⟩
  | cons y ys ih =>
    intro init
    have h := ih (minStep init y)
    refine ⟨?_, ?_⟩
    · rw [List.foldl_cons]
      exact le_trans h.1 (minStep_amount_le_left init y)
    · intro x hx
      rcases List.mem_cons.mp hx with rfl | hx
      · rw [List.foldl_cons]
        exact le_trans h.1 (minStep_amount_le_right init x)
      · rw [List.foldl_cons]
        exact h.2 x hx

theorem pyMinByAmount_eq_none {l : List Rate} :
    pyMinByAmount l = none ↔ l = [] := by
  cases l <;> simp [pyMinByAmount]

theorem pyMinByAmount_spec {l : List Rate} {r : Rate}
    (h : pyMinByAmount l = some r) :
    r ∈ l ∧ ∀ x ∈ l, r.amount ≤ x.amount := by
  cases l with
  | nil => cases h
  | cons a as =>
    simp only [pyMinByAmount, Option.some.injEq] at h
    subst h
    constructor
    · rcases foldl_minStep_mem as a with h | h
      · rw [h]; exact List.mem_cons_self _ _
      · exact List.mem_cons_of_mem _ h
    · intro x hx
      have hle := foldl_minStep_le as a
      rcases List.mem_cons.mp hx with rfl | hx
      · exact hle.1
      · exact hle.2 x hx

/- ===================================================================
   Claim theorems
   =================================================================== -/

/-- C8: for every non-empty candidate rate list, _select_best_rate rejects
candidates carrying error messages; with a preferred carrier that has valid
candidates it selects the cheapest candidate of that carrier even when a
cheaper candidate of another carrier exists; otherwise it selects the
cheapest valid candidate overall; and with no valid candidate left it fails
with an error. -/
theorem c8_rate_selection (rates : List Rate) (preferred : Option String)
    (hne : rates ≠ []) :
    (valid_rates_of rates = [] →
      select_best_rate rates preferred
        = .error "No valid shipping rates available")
    ∧ (∀ p, preferred = some p → carrier_rates_of rates p ≠ [] →
        ∃ r, select_best_rate rates preferred = .ok r
          ∧ r ∈ carrier_rates_of rates p
          ∧ ∀ x ∈ carrier_rates_of rates p, r.amount ≤ x.amount)
    ∧ ((preferred = none ∨
          (∃ p, preferred = some p ∧ carrier_rates_of rates p = [])) →
        valid_rates_of rates ≠ [] →
        ∃ r, select_best_rate rates preferred = .ok r
          ∧ r ∈ valid_rates_of rates
          ∧ ∀ x ∈ valid_rates_of rates, r.amount ≤ x.amount) := by
  cases hmin : pyMinByAmount (valid_rates_of rates) with
  | none =>
    have hemp : valid_rates_of rates = [] := pyMinByAmount_eq_none.mp hmin
    refine ⟨fun _ => ?_, fun p hp hcr => ?_, fun _ hval => absurd hemp hval⟩
    · simp [select_best_rate, hmin]
    · exact absurd (by unfold carrier_rates_of; rw [hemp]; rfl) hcr
  | some cheapest =>
    have hspec := pyMinByAmount_spec hmin
    refine ⟨fun hemp => ?_, fun p hp hcr => ?_, fun hcase hval => ?_⟩
    · rw [hemp] at hmin
      simp [pyMinByAmount] at hmin
    · subst hp
      cases hcmin : pyMinByAmount (carrier_rates_of rates p) with
      | none => exact absurd (pyMinByAmount_eq_none.mp hcmin) hcr
      | some best =>
        have hbspec := pyMinByAmount_spec hcmin
        exact ⟨best, by simp [select_best_rate, hmin, hcmin], hbspec.1, hbspec.2⟩
    · rcases hcase with hnone | ⟨p, hp, hcemp⟩
      · subst hnone
        exact ⟨cheapest, by simp [select_best_rate, hmin], hspec.1, hspec.2⟩
      · subst hp
        have hcmin : pyMinByAmount (carrier_rates_of rates p) = none :=
          pyMinByAmount_eq_none.mpr hcemp
        exact ⟨cheapest, by simp [select_best_rate, hmin, hcmin], hspec.1,
          hspec.2⟩

/-- Witness for C8: with candidates usps at 5.50 and ups at 7.25 and
preferred carrier ups, the cheapest ups candidate is selected even though a
cheaper usps candidate exists. -/
theorem c8_rate_selection_witness :
    ∃ r, select_best_rate [usps550, ups725] (some "ups") = .ok r
      ∧ r ∈ carrier_rates_of [usps550, ups725] "ups"
      ∧ ∀ x ∈ carrier_rates_of [usps550, ups725] "ups", r.amount ≤ x.amount :=
  (c8_rate_selection [usps550, ups725] (some "ups") (by decide)).2.1 "ups" rfl
    (by decide)

/-- C1, recorded as a code bug: the combined create order plus label plus
packing slip operation was meant to report label rate plus the fixed 0.05
packing-slip fee (the inline comment at client.py line 349 says so), but
get_rates_and_create_label attaches the selected rate only to a discarded
dict (client.py lines 264-268), so the getattr fallback makes total_cost
0 + 0.05 = 0.05 for every successful run: a selected rate of 5.50 yields
0.05, not the 5.55 the claim states. -/
theorem c1_combined_cost_code_bug :
    select_best_rate [usps550] none = .ok usps550
    ∧ usps550.amount = 11 / 2
    ∧ combined_total_cost
        (create_combined_label_and_packing_slip "order-1" [usps550]
          sample_purchase "https://deliver.goshippo.com/slip.pdf" none)
        = some (5 / 100)
    ∧ (5 / 100 : ℚ) ≠ 11 / 2 + 5 / 100 := by
  refine ⟨rfl, by norm_num [usps550], ?_, by norm_num⟩
  have h1 : combined_total_cost
      (create_combined_label_and_packing_slip "order-1" [usps550]
        sample_purchase "https://deliver.goshippo.com/slip.pdf" none)
      = some (0 + 5 / 100) := rfl
  rw [h1]
  norm_num

/-- C2, recorded as a code bug: process_order_fulfillment reads the selected
carrier from getattr(label_result, rate_details, default) which is always the
default, so the carrier recorded in the Shopify fulfillment update and in the
result file is USPS for every order, even when the cheapest valid rate is a
ups rate, where the claim states UPS. -/
theorem c2_carrier_code_bug :
    select_best_rate [ups300] none = .ok ups300
    ∧ ups300.provider = "ups"
    ∧ fulfillment_carrier
        (process_order_fulfillment 12345 "GL-1001" [ups300] sample_purchase
          555 "success" "2024-01-15T10:30:00") = some "USPS"
    ∧ ("USPS" : String) ≠ "UPS" :=
  ⟨rfl, rfl, by decide, by decide⟩

/-- C3, recorded as a code bug: the status endpoint answers pending when no
fulfillment result file exists, but for every fulfillment result file written
by the Generation B background processing itself the endpoint raises KeyError
on the packing_slip key (the result dict of main.py lines 228-243 has neither
a packing_slip nor a total_cost key while lines 306-315 subscribe both), so
the fulfilled response of the claim is never produced for such files. -/
theorem c3_status_endpoint_keyerror (oid : String) (r : GenBFulfillmentResult) :
    get_order_status oid none
      = .ok (.obj [("order_id", .str oid), ("status", .str "pending"),
                   ("message", .str "Order not yet processed")])
    ∧ get_order_status oid (some (genB_result_json r))
      = .error "KeyError: packing_slip" :=
  ⟨rfl, rfl⟩

/-- C4, recorded as a code bug: the validate_postal_code validator body does
reject ABCDE for country US, but pydantic validates postal_code before
country (schemas.py lines 61-66), so values.get of country is always None at
validation time, the US branch never runs, and construction of a US address
with postal code ABCDE succeeds where the claim states it is rejected. -/
theorem c4_us_zip_check_skipped :
    is_us_zip "90210" = true
    ∧ is_us_zip "90210-1234" = true
    ∧ is_us_zip "ABCDE" = false
    ∧ validate_postal_code (some "US") "ABCDE"
        = .error "Invalid US ZIP code format"
    ∧ isOk (Address.construct abcde_address) = true
    ∧ isOk (Address.construct zip_address) = true :=
  ⟨by decide, by decide, by decide, rfl, by decide, by decide⟩

/-- C6 counterexample: the test webhook endpoint answers the valid paid
sample payload with body status received, not accepted as the claim
states. -/
theorem c6_test_status_counterexample :
    response_status (test_order_webhook true (.ok sample_paid_order)).1
      = some "received"
    ∧ ("received" : String) ≠ "accepted" :=
  ⟨by decide, by decide⟩

/-- C6 as amended: in test mode a valid paid order with a shipping address
and at least one line item is accepted with HTTP 200 and body status
received and queued for background processing, while the same payload with
financial status pending is answered with status skipped, a stated reason,
and no background task. -/
theorem c6_test_endpoint_behavior (o : ShopifyOrderB)
    (hpaid : py_lower o.financial_status = "paid")
    (hnotf : o.fulfillment_status ≠ some "fulfilled")
    (haddr : (o.shipping_address.getD []).isEmpty = false)
    (hitems : o.line_items.isEmpty = false) :
    (test_order_webhook true (.ok o)).1
      = .ok { status := "received", order_id := o.id,
              order_number := o.order_number, reason := none,
              message :=
                some "Test order webhook received and queued for processing" }
    ∧ (test_order_webhook true (.ok o)).2 = [o]
    ∧ (∀ o2 : ShopifyOrderB, o2.financial_status = "pending" →
        (test_order_webhook true (.ok o2)).1
          = .ok { status := "skipped", order_id := o2.id,
                  order_number := o2.order_number,
                  reason := some "Order not eligible for fulfillment",
                  message := none }
        ∧ (test_order_webhook true (.ok o2)).2 = []) := by
  have h2 : (o.fulfillment_status == some "fulfilled") = false :=
    beq_eq_false_iff_ne.mpr hnotf
  have hproc : should_process_order o = true := by
    unfold should_process_order
    rw [hpaid, h2]
    simp [haddr, hitems]
  refine ⟨?_, ?_, ?_⟩
  · simp [test_order_webhook, hproc]
  · simp [test_order_webhook, hproc]
  · intro o2 h2p
    have hc : (py_lower "pending" == "paid") = false := by decide
    have hskip : should_process_order o2 = false := by
      unfold should_process_order
      rw [h2p, hc]
      simp
    constructor
    · simp [test_order_webhook, hskip]
    · simp [test_order_webhook, hskip]

/-- C7: the Generation A validation stage fails exactly when the order has no
shippable line items or its total line-item weight strictly exceeds 1600 oz;
an order of exactly 1600 oz passes the weight check, and SKU prefixes play no
part in the outcome (the educational-product check only logs). -/
theorem c7_validation_stage_iff (o : OrderA) :
    isError (validation_stage o) = true
      ↔ (o.requires_shipping = false ∨ 1600 < o.total_weight_oz) := by
  unfold validation_stage
  by_cases h1 : o.requires_shipping = false
  · simp [h1, isError]
  · by_cases h2 : (1600 : ℚ) < o.total_weight_oz
    · simp [h1, h2, isError]
    · simp [h1, h2, isError]

/-- Witness for C7: the sample order weighs exactly 1600 oz and passes. -/
theorem c7_validation_stage_witness :
    isError (validation_stage sample_order_1600) = false := by
  have h := c7_validation_stage_iff sample_order_1600
  have hw : sample_order_1600.total_weight_oz = 1600 := by
    simp [sample_order_1600, OrderA.total_weight_oz, LineItemA.total_weight_oz,
      sample_item]
    norm_num
  cases hcase : isError (validation_stage sample_order_1600) with
  | false => rfl
  | true =>
    rcases h.mp hcase with hc | hc
    · simp [sample_order_1600, OrderA.requires_shipping, sample_item] at hc
    · rw [hw] at hc
      exact absurd hc (lt_irrefl _)

/-- Helper: on a headers dict whose keys are lowercase - as every ASGI server
delivers them - the case-sensitive lookup with the mixed-case key literal of
integrations/shopify.py line 405 always misses. -/
theorem lookup_mixed_case_none (headers : List (String × String))
    (hlow : ∀ p ∈ headers, p.1 = py_lower p.1) :
    headers.lookup "X-Shopify-Hmac-Sha256" = none := by
  induction headers with
  | nil => rfl
  | cons q rest ih =>
    obtain ⟨k, v⟩ := q
    have hq : k = py_lower k := hlow (k, v) (List.mem_cons_self _ _)
    have hne : ("X-Shopify-Hmac-Sha256" == k) = false := by
      apply beq_eq_false_iff_ne.mpr
      intro he
      rw [← he] at hq
      exact absurd hq (by decide)
    simp only [List.lookup, hne]
    exact ih (fun p hp => hlow p (List.mem_cons_of_mem _ hp))

/-- Helper: Generation A signature verification can never succeed on
ASGI-delivered (lowercase-keyed) headers, whatever signature they carry: the
extracted comparison target is always the empty string while the computed
base64 digest is non-empty. -/
theorem verify_webhook_never (hmac_b64 : String → String → String)
    (secret body : String) (headers : List (String × String))
    (hlow : ∀ p ∈ headers, p.1 = py_lower p.1)
    (hne : hmac_b64 secret body ≠ "") :
    verify_webhook hmac_b64 secret body headers = false := by
  unfold verify_webhook get_header
  rw [lookup_mixed_case_none headers hlow]
  simp only [Option.getD_none]
  exact beq_eq_false_iff_ne.mpr hne

/-- C5 counterexample: a Generation B request whose signature header is
present but wrong is answered 500, not the 401 the claim states - the
HTTPException(401) of webhook_handler.py line 78 is caught by the trailing
except Exception clause and re-raised as HTTPException(500). -/
theorem c5_genb_answers_500 :
    handle_order_webhook demo_hmac "sec" bad_sig_request_b
      = (.error .internal500, [])
    ∧ HttpError.internal500 ≠ HttpError.unauthorized401 :=
  ⟨rfl, by decide⟩

/-- C5 as amended: on a webhook request whose signature does not verify,
neither generation schedules background processing; Generation A answers 401
(it answers 401 to every request: the signature is extracted with a
case-sensitive mixed-case lookup from the lowercase-keyed headers dict, so
verification always fails), while Generation B answers 500 - both for a
present-but-wrong signature and for a missing header while a secret is
configured - because the internally raised HTTPException(401) is re-raised
as 500 by the catch-all except clause. -/
theorem c5_bad_signature_behavior
    (hmac_b64 : String → String → String) (secret_a : String)
    (events : List String) (ra : RequestA)
    (hlow : ∀ p ∈ ra.headers, p.1 = py_lower p.1)
    (ha_ne : hmac_b64 secret_a ra.body ≠ "")
    (secret_b : String) (rb : RequestB) (hb_secret : secret_b ≠ "") :
    ((handle_order_create hmac_b64 secret_a events ra).response = .unauthorized
      ∧ (handle_order_create hmac_b64 secret_a events ra).tasks = [])
    ∧ (∀ sig_b, rb.sig_header = some sig_b →
        hmac_b64 secret_b rb.body ≠ sig_b →
        handle_order_webhook hmac_b64 secret_b rb
          = (.error .internal500, []))
    ∧ (rb.sig_header = none →
        handle_order_webhook hmac_b64 secret_b rb
          = (.error .internal500, [])) := by
  have hv : verify_webhook hmac_b64 secret_a ra.body ra.headers = false :=
    verify_webhook_never hmac_b64 secret_a ra.body ra.headers hlow ha_ne
  refine ⟨?_, ?_, ?_⟩
  · constructor <;> simp [handle_order_create, hv]
  · intro sig_b hb hbad
    have hvb : verify_webhook_signature hmac_b64 secret_b rb.body rb.sig_header
        = false := by
      unfold verify_webhook_signature
      rw [if_neg hb_secret, hb]
      exact beq_eq_false_iff_ne.mpr (fun he => hbad he.symm)
    simp [handle_order_webhook, parse_order_webhook, hvb]
  · intro hb
    have hvb : verify_webhook_signature hmac_b64 secret_b rb.body rb.sig_header
        = false := by
      unfold verify_webhook_signature
      rw [if_neg hb_secret, hb]
    simp [handle_order_webhook, parse_order_webhook, hvb]

/-- Witness for C5: both endpoints evaluated on concrete requests with a
wrong signature, and Generation B also on a request with no signature
header. -/
theorem c5_bad_signature_witness :
    ((handle_order_create demo_hmac "sec" []
        lowercase_bad_sig_request).response = ResponseA.unauthorized
      ∧ (handle_order_create demo_hmac "sec" []
          lowercase_bad_sig_request).tasks = [])
    ∧ handle_order_webhook demo_hmac "sec" bad_sig_request_b
        = (.error .internal500, [])
    ∧ handle_order_webhook demo_hmac "sec" missing_sig_request_b
        = (.error .internal500, []) := by
  have h1 := c5_bad_signature_behavior demo_hmac "sec" []
    lowercase_bad_sig_request (by decide) (by decide) "sec" bad_sig_request_b
    (by decide)
  have h2 := c5_bad_signature_behavior demo_hmac "sec" []
    lowercase_bad_sig_request (by decide) (by decide) "sec"
    missing_sig_request_b (by decide)
  exact ⟨h1.1, h1.2.1 "WRONG" rfl (by decide), h2.2.2 rfl⟩

/-- C10, recorded as a code bug: the endpoint adds the event id to the
duplicate set after signature verification and before JSON parsing exactly as
the claim reads the code, but that path is unreachable - verify_webhook
extracts the signature with the case-sensitive mixed-case lookup
headers.get("X-Shopify-Hmac-Sha256", "") from the lowercase-keyed
dict(request.headers) (the same function reads x-shopify-event-id in
lowercase), so it always compares the digest against the empty string and
fails.  Evaluated on a correctly signed request (the digest presented back
under the lowercase header key) with a malformed body: the response is 401,
not the 400 the claim states, the event id is never added, and a later
correctly signed request with the same event id is again answered 401 - never
acknowledged as a duplicate - with no background task ever scheduled. -/
theorem c10_dedup_unreachable :
    signed_malformed_request.json_ok = false
    ∧ get_header signed_malformed_request.headers "x-shopify-hmac-sha256"
        = demo_hmac "sec" signed_malformed_request.body
    ∧ verify_webhook demo_hmac "sec" signed_malformed_request.body
        signed_malformed_request.headers = false
    ∧ (handle_order_create demo_hmac "sec" []
        signed_malformed_request).response = ResponseA.unauthorized
    ∧ (handle_order_create demo_hmac "sec" []
        signed_malformed_request).events = []
    ∧ (handle_order_create demo_hmac "sec" []
        signed_malformed_request).tasks = []
    ∧ (∀ pr ∈ process_trace demo_hmac "sec"
          (handle_order_create demo_hmac "sec" []
            signed_malformed_request).events [signed_retry_request],
        pr.2.response = ResponseA.unauthorized ∧ pr.2.tasks = []) := by
  refine ⟨rfl, rfl, by decide, ?_, ?_, ?_, by decide⟩ <;> rfl

/-- Helper: looking up the inserted key finds the inserted value. -/
theorem dictInsert_lookup {α : Type} (k : String) (v : α) :
    ∀ d : List (String × α), (dictInsert k v d).lookup k = some v := by
  intro d
  induction d with
  | nil => simp [dictInsert, List.lookup]
  | cons q rest ih =>
    obtain ⟨k0, v0⟩ := q
    unfold dictInsert
    by_cases h : k0 = k
    · simp [h, List.lookup]
    · have hbeq : (k == k0) = false := beq_eq_false_iff_ne.mpr (Ne.symm h)
      simp [h, List.lookup, hbeq, ih]

/-- Helper: when the inserted pair satisfies the predicate and nothing in the
dict does, find? returns the inserted pair. -/
theorem find_dictInsert {α : Type} (pred : String × α → Bool) (k : String)
    (v : α) (hkv : pred (k, v) = true) :
    ∀ d : List (String × α), (∀ p ∈ d, pred p = false) →
      (dictInsert k v d).find? pred = some (k, v) := by
  intro d
  induction d with
  | nil =>
    intro _
    simp [dictInsert, List.find?, hkv]
  | cons q rest ih =>
    obtain ⟨k0, v0⟩ := q
    intro hall
    unfold dictInsert
    by_cases hk : k0 = k
    · rw [if_pos hk]
      simp [List.find?, hkv]
    · rw [if_neg hk]
      have h0 : pred (k0, v0) = false := hall _ (List.mem_cons_self _ _)
      simp only [List.find?, h0]
      exact ih (fun p hp => hall p (List.mem_cons_of_mem _ hp))

/-- C9: saving a valid order whose channel order id is fresh for the index
and re-fetching it by that channel order id returns the order unchanged; and
listing with a non-empty status filter returns only entries of that status,
sorted by creation time descending, paginated by offset and limit. -/
theorem c9_storage_roundtrip_and_listing (s : StorageState) (o : OrderA)
    (st : String) (limit offset : Nat)
    (hfresh : ∀ p ∈ s.orders_index, p.2.channel_order_id ≠ o.channel_order_id)
    (hst : st ≠ "") :
    get_order_by_channel_id (save_order s o) o.channel_order_id = some o
    ∧ (∀ p ∈ list_orders s (some st) limit offset, p.2.status = st)
    ∧ List.Sorted createdDesc (list_orders s (some st) limit offset)
    ∧ list_orders s (some st) limit offset
        = ((((filter_by_status s (some st)).insertionSort
            createdDesc).drop offset).take limit) := by
  refine ⟨?_, ?_, ?_, rfl⟩
  · have hfind : (dictInsert (toString o.id) (index_entry_of o)
        s.orders_index).find?
          (fun p => p.2.channel_order_id == o.channel_order_id)
        = some (toString o.id, index_entry_of o) := by
      apply find_dictInsert
      · simp [index_entry_of]
      · intro p hp
        exact beq_eq_false_iff_ne.mpr (hfresh p hp)
    have hl1 : (save_order s o).orders_index.lookup (toString o.id)
        = some (index_entry_of o) := dictInsert_lookup _ _ _
    have hl2 : (save_order s o).order_files.lookup (index_entry_of o).file_path
        = some o := by
      show (dictInsert (o.order_number ++ ".json") o s.order_files).lookup
        (o.order_number ++ ".json") = some o
      exact dictInsert_lookup _ _ _
    unfold get_order_by_channel_id
    rw [show (save_order s o).orders_index
        = dictInsert (toString o.id) (index_entry_of o) s.orders_index from rfl,
      hfind]
    simp [get_order, hl1, hl2]
  · intro p hp
    unfold list_orders at hp
    have hp2 : p ∈ (filter_by_status s (some st)).insertionSort createdDesc :=
      List.mem_of_mem_drop (List.mem_of_mem_take hp)
    have hp3 : p ∈ filter_by_status s (some st) :=
      (List.perm_insertionSort createdDesc _).mem_iff.mp hp2
    unfold filter_by_status at hp3
    have hpred0 := List.of_mem_filter hp3
    have hpred : (if st = "" then true else p.2.status == st) = true := hpred0
    rw [if_neg hst] at hpred
    exact eq_of_beq hpred
  · have hsorted : List.Sorted createdDesc
        ((filter_by_status s (some st)).insertionSort createdDesc) :=
      List.sorted_insertionSort createdDesc _
    have hsub : ((((filter_by_status s (some st)).insertionSort
          createdDesc).drop offset).take limit).Sublist
        ((filter_by_status s (some st)).insertionSort createdDesc) :=
      (List.take_sublist _ _).trans (List.drop_sublist _ _)
    exact List.Pairwise.sublist hsub hsorted

/-- Witness for C9: round trip of the sample order through an empty store. -/
theorem c9_storage_witness :
    get_order_by_channel_id (save_order empty_storage sample_order_1600)
      sample_order_1600.channel_order_id = some sample_order_1600 :=
  (c9_storage_roundtrip_and_listing empty_storage sample_order_1600 "pending"
    100 0 (fun p hp => absurd hp (List.not_mem_nil p)) (by decide)).1

/-- Witness for C6: the amended behavior evaluated at the sample payloads of
the integration test suite. -/
theorem c6_test_endpoint_witness :
    (test_order_webhook true (.ok sample_paid_order)).1
      = .ok { status := "received", order_id := 12345,
              order_number := "GL-1001", reason := none,
              message :=
                some "Test order webhook received and queued for processing" }
    ∧ (test_order_webhook true (.ok sample_paid_order)).2 = [sample_paid_order]
    ∧ (test_order_webhook true (.ok sample_pending_order)).1
      = .ok { status := "skipped", order_id := 12345,
              order_number := "GL-1001",
              reason := some "Order not eligible for fulfillment",
              message := none }
    ∧ (test_order_webhook true (.ok sample_pending_order)).2 = [] := by
  have h := c6_test_endpoint_behavior sample_paid_order (by decide) (by decide)
    (by decide) (by decide)
  have hp := h.2.2 sample_pending_order rfl
  exact ⟨h.1, h.2.1, hp.1, hp.2⟩

end EcomOps
